import Mathlib

/-!
Verification of the hab_data_api core against its specification.

Shallow embedding of:
* `services/cache.py` — the `cache_for` TTL memoizer and its key derivation;
* `services/price.py` — the tariff-period registry, the price aggregation
  engine and the per-interval price calculation;
* `dto/generic.py` — `TimeDataInterpolatedRangeDto.to_df` interpolation;
* `services/belpex.py` — the grid price ingestion loop;
* `blueprints/api/__init__.py` — the operations the simulation endpoints
  require from the price service.

Python floats are modelled as rationals, Python `datetime.date` values as a
`Date` structure, and Python `None` as `Option.none`.  External collaborators
(the Influx time-series store and the grid-data HTTP client) are parameters of
the embedding, as the spec treats them as collaborator contracts.
-/

set_option maxRecDepth 10000
set_option linter.unnecessarySeqFocus false

/-! ## Dates (Python `datetime.date`) -/

/-- A calendar date.  Python `datetime.date` only constructs valid dates; the
`Date.Valid` predicate recovers that invariant for theorems. -/
structure Date where
  year : Nat
  month : Nat
  day : Nat
deriving DecidableEq, Repr

/-- Python `calendar.isleap`. -/
def isleap (y : Nat) : Bool :=
  y % 4 == 0 && (y % 100 != 0 || y % 400 == 0)

/-- Python `calendar.monthrange(y, m)[1]`: number of days in a month. -/
def daysInMonth (y m : Nat) : Nat :=
  match m with
  | 1 => 31
  | 2 => if isleap y then 29 else 28
  | 3 => 31
  | 4 => 30
  | 5 => 31
  | 6 => 30
  | 7 => 31
  | 8 => 31
  | 9 => 30
  | 10 => 31
  | 11 => 30
  | 12 => 31
  | _ => 0

/-- Order-preserving injection of valid dates into `Nat` (YYYYMMDD). -/
def Date.toNat (d : Date) : Nat := d.year * 10000 + d.month * 100 + d.day

/-- The invariant `datetime.date` maintains by construction. -/
def Date.Valid (d : Date) : Prop :=
  1 ≤ d.month ∧ d.month ≤ 12 ∧ 1 ≤ d.day ∧ d.day ≤ daysInMonth d.year d.month

instance (d : Date) : Decidable d.Valid := by
  unfold Date.Valid; infer_instance

/-- Python `max(a, b)` on dates (returns `b` when equal, as CPython does). -/
def dmax (a b : Date) : Date := if a.toNat ≤ b.toNat then b else a

/-- Python `min(a, b)` on dates. -/
def dmin (a b : Date) : Date := if b.toNat < a.toNat then b else a

/-! ## TTL cache (`services/cache.py`)

`CACHE` is a process-wide dict from the 32-bit key to `(timestamp, value)`.
A stored Python `None` result is modelled as `Option.none`; time is rational.
-/

/-- The process-wide `CACHE` dict, for one value type. -/
def CacheMap (V : Type) : Type := Nat → Option (ℚ × Option V)

/-- Embedding of `CACHE.get(key, (None, None))`, with presence of an entry made explicit. -/
def cacheGet {V : Type} (m : CacheMap V) (k : Nat) : Option (ℚ × Option V) := m k

/-- Embedding of `CACHE[key] = (now, result)`. -/
def cacheSet {V : Type} (m : CacheMap V) (k : Nat) (p : ℚ × Option V) : CacheMap V :=
  fun k' => if k' = k then some p else m k'

/-- Embedding of `CacheService.clear_cache`. -/
def clear_cache {V : Type} (_ : CacheMap V) : CacheMap V := fun _ => none

/-- Result of one call through the `cache_for(seconds)` wrapper: the returned
value, the cache afterwards, and whether the wrapped function was invoked. -/
structure CallResult (V : Type) where
  value : Option V
  cache : CacheMap V
  invoked : Bool

/-- One call through the wrapper produced by `cache_for(seconds)`:
look the key up; if a timestamp and a non-`None` value are stored and
`timestamp >= now - timedelta(seconds=seconds)`, return the stored value
without invoking the function; otherwise invoke it (its result for this call
is `compute`) and store `(now, compute)` under the key. -/
def wrapperCall {V : Type} (seconds : ℚ) (key : Nat) (compute : Option V)
    (now : ℚ) (m : CacheMap V) : CallResult V :=
  match cacheGet m key with
  | some (timestamp, some cached) =>
    if now - seconds ≤ timestamp then
      ⟨some cached, m, false⟩
    else
      ⟨compute, cacheSet m key (now, compute), true⟩
  | _ => ⟨compute, cacheSet m key (now, compute), true⟩

/-! ## Cache key derivation (`cache.py` lines 10-13)

`fn_hash = zlib.crc32((fn.__name__ + str(args) + str(kwargs)).encode('utf8')) & 0xffffffff`.
zlib's CRC-32: reflected polynomial `0xEDB88320`, initial value and final xor
`0xFFFFFFFF`, processing the input byte by byte. -/

/-- One bit-step of the reflected CRC-32. -/
def crc32Step (c : Nat) : Nat :=
  if c % 2 = 1 then Nat.xor (c / 2) 0xEDB88320 else c / 2

/-- Fold one input byte into the CRC accumulator (eight bit-steps). -/
def crc32Update (c b : Nat) : Nat :=
  crc32Step (crc32Step (crc32Step (crc32Step
    (crc32Step (crc32Step (crc32Step (crc32Step (Nat.xor c b))))))))

/-- Embedding of `zlib.crc32` over a byte list. -/
def crc32 (bs : List Nat) : Nat :=
  Nat.xor (bs.foldl crc32Update 0xFFFFFFFF) 0xFFFFFFFF

/-- UTF-8 bytes of an ASCII string (all strings hashed here are ASCII). -/
def strBytes (s : String) : List Nat := s.toList.map Char.toNat

/-- The key the wrapper derives for a call:
`zlib.crc32((fn.__name__ + str(args) + str(kwargs)).encode('utf8')) & 0xffffffff`. -/
def fn_hash (fnName argsStr kwargsStr : String) : Nat :=
  Nat.land (crc32 (strBytes (fnName ++ argsStr ++ kwargsStr))) 0xffffffff

/-- Python `repr` of a `datetime.datetime` with zero seconds, as it appears
inside `str(args)`. -/
def pyDatetimeRepr (y mo d h mi : Nat) : String :=
  "datetime.datetime(" ++ toString y ++ ", " ++ toString mo ++ ", " ++ toString d
    ++ ", " ++ toString h ++ ", " ++ toString mi ++ ")"

/-- Embedding of `repr` of the `InfluxService` instance bound as `self` (one fixed object
for the lifetime of the process; the address is arbitrary but fixed). -/
def influxSelfRepr : String :=
  "<services.influx.InfluxService object at 0x7f3a9c2b4e50>"

/-- Cache key of a call `influx.get_belpex_range(start, end)` — a function
memoized with `@cache_for(seconds=300)`.  `args = (self, start, end)` and
`kwargs = {}`, so `str(args)` is the parenthesised, comma-separated reprs. -/
def getBelpexRangeKey (startRepr endRepr : String) : Nat :=
  fn_hash ("get_belpex_range")
    ("(" ++ influxSelfRepr ++ ", " ++ startRepr ++ ", " ++ endRepr ++ ")")
    "\x7b\x7d"


/-- CRC accumulator state after folding a byte list (used to evaluate the long
key strings chunk by chunk). -/
def crcAcc (i : Nat) (bs : List Nat) : Nat := bs.foldl crc32Update i

/- Byte chunks of the two colliding key strings (split for evaluation). -/
def keyChunk0 : List Nat := [103, 101, 116, 95, 98, 101, 108, 112, 101, 120, 95, 114, 97, 110, 103, 101, 40, 60, 115, 101, 114, 118, 105, 99, 101, 115, 46, 105, 110, 102, 108, 117, 120, 46, 73, 110, 102, 108, 117, 120]
def keyChunk1 : List Nat := [83, 101, 114, 118, 105, 99, 101, 32, 111, 98, 106, 101, 99, 116, 32, 97, 116, 32, 48, 120, 55, 102, 51, 97, 57, 99, 50, 98, 52, 101, 53, 48, 62, 44, 32, 100, 97, 116, 101, 116]
def keyChunkP2 : List Nat := [105, 109, 101, 46, 100, 97, 116, 101, 116, 105, 109, 101, 40, 50, 48, 50, 51, 44, 32, 49, 44, 32, 49, 51, 44, 32, 49, 48, 44, 32, 52, 50, 41, 44, 32, 100, 97, 116, 101, 116]
def keyChunkP3 : List Nat := [105, 109, 101, 46, 100, 97, 116, 101, 116, 105, 109, 101, 40, 50, 48, 51, 48, 44, 32, 49, 50, 44, 32, 50, 52, 44, 32, 50, 49, 44, 32, 52, 55, 41, 41, 123, 125]
def keyChunkQ2 : List Nat := [105, 109, 101, 46, 100, 97, 116, 101, 116, 105, 109, 101, 40, 50, 48, 50, 51, 44, 32, 55, 44, 32, 50, 55, 44, 32, 54, 44, 32, 55, 41, 44, 32, 100, 97, 116, 101, 116, 105, 109]
def keyChunkQ3 : List Nat := [101, 46, 100, 97, 116, 101, 116, 105, 109, 101, 40, 50, 48, 50, 56, 44, 32, 49, 44, 32, 49, 50, 44, 32, 49, 53, 44, 32, 49, 51, 41, 41, 123, 125]

/-! ## Price model (`services/price.py`)

The 15-minutely energy data and the Influx-provided collaborator values
(invoice peak, monthly mean belpex, quarter-hour belpex) are parameters of the
embedding, bundled in `Env`.  Prices are rationals. -/

/-- A timestamp at quarter-hour granularity: a date plus the index of the
quarter hour within the day (0..95). -/
structure Ts where
  date : Date
  quarter : Nat
deriving DecidableEq, Repr

/-- Order-preserving injection of timestamps into `Nat`. -/
def Ts.toNat (t : Ts) : Nat := t.date.toNat * 100 + t.quarter

/-- One `AggregatedInterval` row as produced by
`get_15minutely_energy_consumption_injection`. -/
structure Row where
  ts : Ts
  consumption_rate1 : ℚ
  consumption_rate2 : ℚ
  injection_rate1 : ℚ
  injection_rate2 : ℚ
deriving DecidableEq, Repr

/-- One `PriceBreakdown`: the six columns of the `pd.Series` returned by
`calculate_price`, in source order. -/
structure Breakdown where
  fixed : ℚ
  peak : ℚ
  distribution : ℚ
  consumption : ℚ
  injection : ℚ
  total : ℚ
deriving DecidableEq, Repr

/-- Field-wise sum of two breakdowns (what `agg('sum')` does per column). -/
def Breakdown.add (a b : Breakdown) : Breakdown :=
  ⟨a.fixed + b.fixed, a.peak + b.peak, a.distribution + b.distribution,
   a.consumption + b.consumption, a.injection + b.injection, a.total + b.total⟩

/-- The external collaborator data the price service reads. -/
structure Env where
  /-- The 15-minutely energy rows stored in Influx (time-sorted store). -/
  rows : List Row
  /-- Embedding of `influx.get_invoice_peak(year, month)` (collaborator-provided value). -/
  invoicePeak : Nat → Nat → ℚ
  /-- Embedding of `influx.get_monthly_belpex(year, month)`, modelled as present. -/
  monthlyBelpex : Nat → Nat → ℚ
  /-- Embedding of `influx.get_belpex(timestamp)`, modelled as present. -/
  belpex : Ts → ℚ

/-- The four concrete tariff calculators of `price.py`. -/
inductive Calc where
  | waseWind2024
  | waseWind2025
  | waseWind2026
  | waseWindDynamic2026
deriving DecidableEq, Repr

/-- Embedding of `get_monthly_belpex(timestamp)` of `AbstractDynamicPriceCalculation`. -/
def get_monthly_belpex (env : Env) (t : Ts) : ℚ :=
  env.monthlyBelpex t.date.year t.date.month

/-- Embedding of `get_consumption_rate1_price` of each calculator. -/
def get_consumption_rate1_price (c : Calc) (env : Env) (t : Ts) : ℚ :=
  match c with
  | .waseWind2024 => (0.115 * 0.5 * get_monthly_belpex env t * 10 + 7.46) / 100
  | .waseWind2025 => (0.115 * 0.5 * get_monthly_belpex env t * 10 + 7.16) / 100
  | .waseWind2026 => (0.138 * 0.5 * get_monthly_belpex env t * 10 + 7.72) / 100
  | .waseWindDynamic2026 => (0.106 * 0.5 * env.belpex t * 10 + 7.72) / 100

/-- Embedding of `get_consumption_rate2_price` of each calculator. -/
def get_consumption_rate2_price (c : Calc) (env : Env) (t : Ts) : ℚ :=
  match c with
  | .waseWind2024 => (0.100 * 0.5 * get_monthly_belpex env t * 10 + 6.63) / 100
  | .waseWind2025 => (0.100 * 0.5 * get_monthly_belpex env t * 10 + 6.36) / 100
  | .waseWind2026 => get_consumption_rate1_price .waseWind2026 env t
  | .waseWindDynamic2026 => get_consumption_rate1_price .waseWindDynamic2026 env t

/-- Embedding of `get_injection_rate1_price` of each calculator. -/
def get_injection_rate1_price (c : Calc) (env : Env) (t : Ts) : ℚ :=
  match c with
  | .waseWind2024 => (0.08 * get_monthly_belpex env t * 10 - 0.6) / 100
  | .waseWind2025 => (0.07 * get_monthly_belpex env t * 10 - 1) / 100
  | .waseWind2026 => 0.02
  | .waseWindDynamic2026 => 0.02

/-- Embedding of `get_injection_rate2_price` of each calculator. -/
def get_injection_rate2_price (c : Calc) (env : Env) (t : Ts) : ℚ :=
  match c with
  | .waseWind2024 => (0.06 * get_monthly_belpex env t * 10 - 0.6) / 100
  | .waseWind2025 => (0.05 * get_monthly_belpex env t * 10 - 1) / 100
  | .waseWind2026 => get_injection_rate1_price .waseWind2026 env t
  | .waseWindDynamic2026 => get_injection_rate1_price .waseWindDynamic2026 env t

/-- Embedding of `get_subscription_price` of each calculator. -/
def get_subscription_price (c : Calc) : ℚ :=
  match c with
  | .waseWind2024 => 60
  | .waseWind2025 => 65
  | .waseWind2026 => 65
  | .waseWindDynamic2026 => 65

/-- Embedding of `get_distribution_price_per_kW_peak` of each calculator. -/
def get_distribution_price_per_kW_peak (c : Calc) : ℚ :=
  match c with
  | .waseWind2024 => 37.15
  | .waseWind2025 => 51.99
  | .waseWind2026 => 50.1239818 * 1.06
  | .waseWindDynamic2026 => 50.1239818 * 1.06

/-- Embedding of `get_distribution_price_per_kWh` of each calculator. -/
def get_distribution_price_per_kWh (c : Calc) : ℚ :=
  match c with
  | .waseWind2024 =>
    ((0.0098665 + 0.0229011 + 0.0010861 + 0.0043571 + 0.0494061) * 1.06) + 0.015667
  | .waseWind2025 => 0.0561 + 0.0157 + 0.0523
  | .waseWind2026 =>
    0.0248638 * 1.06 + 0.0236385 * 1.06 + 0.0013038 * 1.06
      + (1.13 + 0.33) / 100 + (0.0503288 + 0.0020417)
  | .waseWindDynamic2026 =>
    0.0248638 * 1.06 + 0.0236385 * 1.06 + 0.0013038 * 1.06
      + (1.13 + 0.33) / 100 + (0.0503288 + 0.0020417)

/-- Embedding of `get_distribution_price_fixed` of each calculator. -/
def get_distribution_price_fixed (c : Calc) : ℚ :=
  match c with
  | .waseWind2024 => 15.09 / 12.0
  | .waseWind2025 => 18.52 / 12.0
  | .waseWind2026 => 18.921 / 12.0
  | .waseWindDynamic2026 => 18.921 / 12.0

/-- Embedding of `get_eneryfund_price` of each calculator (sic, as named in the source). -/
def get_eneryfund_price (c : Calc) : ℚ :=
  match c with
  | .waseWind2024 => 0
  | .waseWind2025 => 0
  | .waseWind2026 => 0
  | .waseWindDynamic2026 => 0

/-- Embedding of `AbstractPriceCalculation.calculate_price(df_row)`: one breakdown per
aggregated interval row. -/
def calculate_price (c : Calc) (env : Env) (r : Row) : Breakdown :=
  let timestamp := r.ts
  let quarter_hours_in_year : ℚ :=
    365 * 24 * 4 + (if isleap timestamp.date.year then 24 * 4 else 0)
  let quarter_hours_in_month : ℚ :=
    (daysInMonth timestamp.date.year timestamp.date.month : ℚ) * 24 * 4
  let fixed_component :=
    get_subscription_price c / quarter_hours_in_year
      + get_eneryfund_price c / quarter_hours_in_year
      + get_distribution_price_fixed c / quarter_hours_in_month
  let distrib_peak_component :=
    get_distribution_price_per_kW_peak c
      * env.invoicePeak timestamp.date.year timestamp.date.month
      / quarter_hours_in_year
  let distrib_dynamic_component :=
    get_distribution_price_per_kWh c * (r.consumption_rate1 + r.consumption_rate2)
  let consumption_price :=
    get_consumption_rate1_price c env timestamp * r.consumption_rate1
      + get_consumption_rate2_price c env timestamp * r.consumption_rate2
  let injection_price :=
    get_injection_rate1_price c env timestamp * r.injection_rate1
      + get_injection_rate2_price c env timestamp * r.injection_rate2
  let total := fixed_component + distrib_peak_component
      + distrib_dynamic_component + consumption_price - injection_price
  ⟨fixed_component, distrib_peak_component, distrib_dynamic_component,
   consumption_price, -injection_price, total⟩

/-- The bucketing frequencies the service passes around
(`'MS'`, `'1D'`, `'1h'`). -/
inductive Freq where
  | ms
  | d1
  | h1
deriving DecidableEq, Repr

/-- The bucket key `pd.Grouper(freq=freq)` assigns to a timestamp. -/
def bucketKey (freq : Freq) (t : Ts) : Ts :=
  match freq with
  | .ms => ⟨⟨t.date.year, t.date.month, 1⟩, 0⟩
  | .d1 => ⟨t.date, 0⟩
  | .h1 => ⟨t.date, t.quarter / 4 * 4⟩

/-- A priced dataframe: bucket timestamps with their summed breakdowns. -/
abbrev DF := List (Ts × Breakdown)

/-- Insert one keyed breakdown into a key-sorted accumulator, summing on a
key hit (`groupby(...).agg('sum')` sorts group keys and sums columns; empty
gap buckets, which no claim observes, are not materialised). -/
def groupInsert (key : Ts) (b : Breakdown) : DF → DF
  | [] => [(key, b)]
  | (k, v) :: rest =>
    if key.toNat < k.toNat then (key, b) :: (k, v) :: rest
    else if key = k then (k, v.add b) :: rest
    else (k, v) :: groupInsert key b rest

/-- Embedding of `groupby(pd.Grouper(freq=freq)).agg('sum')` over priced rows. -/
def groupSum (keyed : List (Ts × Breakdown)) : DF :=
  keyed.foldl (fun acc p => groupInsert p.1 p.2 acc) []

/-- Embedding of `get_15minutely_energy_consumption_injection(start_date, end_date)`:
the Influx query selects rows with `time >= start_date` and
`time < end_date` (dates at midnight), returning `None` when no rows match. -/
def get_15minutely_energy_consumption_injection (env : Env) (s e : Date) :
    Option (List Row) :=
  let rows := env.rows.filter
    (fun r => s.toNat ≤ r.ts.date.toNat && r.ts.date.toNat < e.toNat)
  if rows.isEmpty then none else some rows

/-- Embedding of `AbstractPriceCalculation.get_aggregated_price(start_date, end_date, freq)`:
price each row, then group by `freq` summing every column; `None` when the
energy query returned no data. -/
def calc_get_aggregated_price (c : Calc) (env : Env) (s e : Date) (freq : Freq) :
    Option DF :=
  match get_15minutely_energy_consumption_injection env s e with
  | none => none
  | some rows =>
    some (groupSum (rows.map (fun r => (bucketKey freq r.ts, calculate_price c env r))))

/-- Embedding of `self.price_calculation` of `PriceService`: year to its ordered list of
`(period start, period end) -> calculator` entries. -/
def price_calculation (year : Nat) : Option (List (Date × Date × Calc)) :=
  match year with
  | 2024 => some [(⟨2024, 1, 1⟩, ⟨2025, 1, 1⟩, .waseWind2024)]
  | 2025 => some [(⟨2025, 1, 1⟩, ⟨2026, 1, 1⟩, .waseWind2025)]
  | 2026 => some [(⟨2026, 1, 1⟩, ⟨2026, 2, 1⟩, .waseWind2026),
                  (⟨2026, 2, 1⟩, ⟨2027, 1, 1⟩, .waseWindDynamic2026)]
  | _ => none

/-- Embedding of `pd.concat` on possibly-absent results: an absent or empty side is the
identity. -/
def optConcat (a b : Option DF) : Option DF :=
  match a, b with
  | acc, none => acc
  | none, some df => some df
  | some acc, some df => some (acc ++ df)

/-- The body of the inner `for` loop of `PriceService.get_aggregated_price`:
intersect the request with one calculation period, skip when the intersection
is reversed, and concatenate a non-empty priced result. -/
def periodStep (env : Env) (freq : Freq) (s e : Date) (acc : Option DF)
    (p : Date × Date × Calc) : Option DF :=
  let intersection_start := dmax s p.1
  let intersection_end := dmin e p.2.1
  if intersection_end.toNat < intersection_start.toNat then acc
  else optConcat acc
    (calc_get_aggregated_price p.2.2 env intersection_start intersection_end freq)

/-- The `for year in years_to_calculate` loop: raise on a year with no
calculations, otherwise fold that year's periods into the accumulator. -/
def serviceLoop (env : Env) (freq : Freq) (s e : Date) :
    List Nat → Option DF → Except String (Option DF)
  | [], acc => .ok acc
  | year :: years, acc =>
    match price_calculation year with
    | none => .error ("No price calculations exist for the year " ++ toString year)
    | some calcs => serviceLoop env freq s e years (calcs.foldl (periodStep env freq s e) acc)

/-- Embedding of `sorted(set(range(start_date.year, end_date.year + 1)))`. -/
def years_to_calculate (s e : Date) : List Nat :=
  List.range' s.year (e.year + 1 - s.year)

/-- Embedding of `PriceService.get_aggregated_price(start_date, end_date, freq)`: iterate
the years of the closed year range, price every overlapping calculation
period, and return `None` when the collected result is empty. -/
def get_aggregated_price (env : Env) (s e : Date) (freq : Freq) :
    Except String (Option DF) :=
  serviceLoop env freq s e (years_to_calculate s e) none

/-- Concatenation lifted to the service's `Except` results, for stating
range-splitting: errors propagate, values concatenate. -/
def exceptConcat (a b : Except String (Option DF)) : Except String (Option DF) :=
  match a, b with
  | .error msg, _ => .error msg
  | .ok _, .error msg => .error msg
  | .ok x, .ok y => .ok (optConcat x y)

/-! ## Interpolation (`dto/generic.py`, `TimeDataInterpolatedRangeDto.to_df`)

`df.set_index("timestamp").resample(freq).interpolate(method).ffill()` for the
linear method, on timestamps at minute granularity (`Nat` minutes) and
rational values.  The resampled grid runs from the first sample's bucket to
the last sample's bucket; a sample landing exactly on a grid point supplies
that point's value (the last such sample on a duplicate); interior gaps are
interpolated linearly between the neighbouring known grid points; positions
after the last known point hold its value (forward fill); positions before
the first known point stay absent (`NaN`). -/

/-- Minimum of the sample timestamps (`df.index.min()`). -/
def tsMin : List Nat → Nat
  | [] => 0
  | x :: xs => xs.foldl min x

/-- Maximum of the sample timestamps (`df.index.max()`). -/
def tsMax : List Nat → Nat
  | [] => 0
  | x :: xs => xs.foldl max x

/-- First grid point: the last sample bucket starts at
`tsMax / freq * freq`; the first at `tsMin / freq * freq`. -/
def gridStart (samples : List (Nat × ℚ)) (freq : Nat) : Nat :=
  tsMin (samples.map (·.1)) / freq * freq

/-- Last grid point. -/
def gridStop (samples : List (Nat × ℚ)) (freq : Nat) : Nat :=
  tsMax (samples.map (·.1)) / freq * freq

/-- The resampled index: grid points from the first to the last bucket. -/
def gridPoints (samples : List (Nat × ℚ)) (freq : Nat) : List Nat :=
  List.range' (gridStart samples freq) ((gridStop samples freq - gridStart samples freq) / freq + 1) freq

/-- The value a grid point holds before interpolation: the last sample lying
exactly on it, if any. -/
def knownAt (samples : List (Nat × ℚ)) (g : Nat) : Option ℚ :=
  ((samples.filter (fun p => p.1 == g)).getLast?).map (·.2)

/-- The nearest earlier grid point holding a known value. -/
def prevKnown (samples : List (Nat × ℚ)) (freq : Nat) (g : Nat) : Option Nat :=
  ((gridPoints samples freq).filter
    (fun x => x < g && (knownAt samples x).isSome)).getLast?

/-- The nearest later grid point holding a known value. -/
def nextKnown (samples : List (Nat × ℚ)) (freq : Nat) (g : Nat) : Option Nat :=
  ((gridPoints samples freq).filter
    (fun x => g < x && (knownAt samples x).isSome)).head?

/-- The value of the produced series at one grid point: known value, linear
interpolation between the bracketing known points, forward fill past the last
known point, or absent before the first. -/
def interpAt (samples : List (Nat × ℚ)) (freq : Nat) (g : Nat) : Option ℚ :=
  match knownAt samples g with
  | some v => some v
  | none =>
    match prevKnown samples freq g, nextKnown samples freq g with
    | some p, some n =>
      match knownAt samples p, knownAt samples n with
      | some vp, some vn => some (vp + (vn - vp) * ((g : ℚ) - p) / ((n : ℚ) - p))
      | _, _ => none
    | some p, none => knownAt samples p
    | none, _ => none

/-- Embedding of `TimeDataInterpolatedRangeDto.to_df(freq)` with the linear method: the
produced series over the resampled grid. -/
def to_df (samples : List (Nat × ℚ)) (freq : Nat) : List (Nat × Option ℚ) :=
  (gridPoints samples freq).map (fun g => (g, interpAt samples freq g))

/-! ## Grid price ingestion (`services/belpex.py`, `update_grid_prices`)

Days are integers.  `fetch d = false` models `get_grid_prices(d)` (or the
subsequent save) raising, which aborts the run; `fetch d = true` models that
day's prices being fetched and persisted, advancing the last persisted day to
`d`. -/

/-- Embedding of `date_from`: the day after the last persisted price, or `today - 40` when
nothing is persisted yet. -/
def dateFrom (lastPersisted : Option Int) (today : Int) : Int :=
  match lastPersisted with
  | none => today - 40
  | some d => d + 1

/-- The `while date_to_fetch <= date_to` loop, one fuel unit per day: on a
fetch failure the exception aborts the run, leaving the watermark at the last
persisted day. -/
def ingestLoop (fetch : Int → Bool) : Nat → Int → Option Int → Option Int
  | 0, _, w => w
  | fuel + 1, d, w => if fetch d then ingestLoop fetch fuel (d + 1) (some d) else w

/-- Embedding of `BelpexService.update_grid_prices`: fetch and persist one day at a time
from `date_from` through `today + 1`, returning the last persisted day. -/
def update_grid_prices (lastPersisted : Option Int) (today : Int)
    (fetch : Int → Bool) : Option Int :=
  let date_from := dateFrom lastPersisted today
  let date_to := today + 1
  ingestLoop fetch (date_to + 1 - date_from).toNat date_from lastPersisted

/-! ## API surface (`blueprints/api/__init__.py` and `services/price.py`)

The methods `PriceService` defines, and the price-service methods the two
simulation endpoints call. -/

/-- The methods defined on `PriceService` (class body of `price.py`). -/
def priceServiceMethods : List String :=
  ["__init__", "get_aggregated_price", "get_monthly_price",
   "get_daily_price", "get_hourly_price"]

/-- The price-service method `POST /price/simulate/total` calls on
`app.services.price`. -/
def simulateTotalCallsMethod : String := "simulate_aggregated_price_total"

/-- The price-service method `POST /price/simulate/total/detail` calls. -/
def simulateTotalDetailCallsMethod : String := "simulate_aggregated_price_total_detail"

/-- An environment with no stored energy rows and zero collaborator values
(used for concrete evaluations). -/
def envNoData : Env := ⟨[], fun _ _ => 0, fun _ _ => 0, fun _ => 0⟩

/-- Decidable equality of service results (for concrete evaluations). -/
instance {e a : Type} [DecidableEq e] [DecidableEq a] : DecidableEq (Except e a)
  | .error x, .error y =>
    if h : x = y then .isTrue (by rw [h]) else .isFalse (by simp [h])
  | .ok x, .ok y =>
    if h : x = y then .isTrue (by rw [h]) else .isFalse (by simp [h])
  | .error _, .ok _ => .isFalse (by simp)
  | .ok _, .error _ => .isFalse (by simp)

/-- The contribution one calculation period adds to the service accumulator:
`None` when skipped or priced empty (proof-side restatement of `periodStep`). -/
def periodContrib (env : Env) (freq : Freq) (s e : Date)
    (p : Date × Date × Calc) : Option DF :=
  if (dmin e p.2.1).toNat < (dmax s p.1).toNat then none
  else calc_get_aggregated_price p.2.2 env (dmax s p.1) (dmin e p.2.1) freq

/-- Concatenation of the contributions of a list of calculation periods. -/
def contribsFold (env : Env) (freq : Freq) (s e : Date)
    (l : List (Date × Date × Calc)) : Option DF :=
  l.foldl (fun a p => optConcat a (periodContrib env freq s e p)) none

/-- The calculation periods registered for a year (empty for missing years). -/
def yearPeriods (y : Nat) : List (Date × Date × Calc) :=
  (price_calculation y).getD []

/-! ## Helper lemmas -/

theorem daysInMonth_le (y m : Nat) : daysInMonth y m ≤ 31 := by
  unfold daysInMonth
  repeat' split
  all_goals omega

theorem Date.toNat_bounds {d : Date} (h : d.Valid) :
    d.year * 10000 + 101 ≤ d.toNat ∧ d.toNat ≤ d.year * 10000 + 1231 := by
  obtain ⟨h1, h2, h3, h4⟩ := h
  have := daysInMonth_le d.year d.month
  unfold Date.toNat
  omega

theorem Date.toNat_inj {a b : Date} (ha : a.Valid) (hb : b.Valid)
    (h : a.toNat = b.toNat) : a = b := by
  obtain ⟨ha1, ha2, ha3, ha4⟩ := ha
  obtain ⟨hb1, hb2, hb3, hb4⟩ := hb
  have la := daysInMonth_le a.year a.month
  have lb := daysInMonth_le b.year b.month
  unfold Date.toNat at h
  have : a.year = b.year ∧ a.month = b.month ∧ a.day = b.day := by omega
  obtain ⟨e1, e2, e3⟩ := this
  cases a; cases b; simp_all

theorem dmax_eq_right {a b : Date} (h : a.toNat ≤ b.toNat) : dmax a b = b :=
  if_pos h

theorem dmax_eq_left {a b : Date} (h : b.toNat < a.toNat) : dmax a b = a :=
  if_neg (by omega)

theorem dmax_eq_left_valid {a b : Date} (ha : a.Valid) (hb : b.Valid)
    (h : b.toNat ≤ a.toNat) : dmax a b = a := by
  rcases Nat.lt_or_ge b.toNat a.toNat with hlt | hge
  · exact dmax_eq_left hlt
  · have : a.toNat = b.toNat := by omega
    rw [dmax_eq_right (by omega), Date.toNat_inj ha hb this]

theorem dmin_eq_left {a b : Date} (h : a.toNat ≤ b.toNat) : dmin a b = a :=
  if_neg (by omega)

theorem dmin_eq_right {a b : Date} (h : b.toNat < a.toNat) : dmin a b = b :=
  if_pos h

theorem dmin_eq_right_valid {a b : Date} (ha : a.Valid) (hb : b.Valid)
    (h : b.toNat ≤ a.toNat) : dmin a b = b := by
  rcases Nat.lt_or_ge b.toNat a.toNat with hlt | hge
  · exact dmin_eq_right hlt
  · have : a.toNat = b.toNat := by omega
    rw [dmin_eq_left (by omega)]
    exact Date.toNat_inj ha hb this

theorem optConcat_none_left (x : Option DF) : optConcat none x = x := by
  cases x <;> rfl

theorem optConcat_none_right (x : Option DF) : optConcat x none = x := by
  cases x <;> rfl

theorem optConcat_assoc (a b c : Option DF) :
    optConcat (optConcat a b) c = optConcat a (optConcat b c) := by
  cases a <;> cases b <;> cases c <;> simp [optConcat, List.append_assoc]

theorem calc_get_aggregated_price_empty {c : Calc} {env : Env} {s e : Date}
    {freq : Freq} (h : e.toNat ≤ s.toNat) :
    calc_get_aggregated_price c env s e freq = none := by
  unfold calc_get_aggregated_price get_15minutely_energy_consumption_injection
  have : env.rows.filter
      (fun r => s.toNat ≤ r.ts.date.toNat && r.ts.date.toNat < e.toNat) = [] := by
    rw [List.filter_eq_nil_iff]
    intro r _
    simp only [Bool.and_eq_true, decide_eq_true_eq, not_and]
    omega
  simp [this]

theorem periodStep_eq (env : Env) (freq : Freq) (s e : Date) (acc : Option DF)
    (p : Date × Date × Calc) :
    periodStep env freq s e acc p = optConcat acc (periodContrib env freq s e p) := by
  simp only [periodStep, periodContrib]
  split
  · rw [optConcat_none_right]
  · rfl

theorem foldl_optConcat {x : Type} (f : x → Option DF) (l : List x) (acc : Option DF) :
    l.foldl (fun a p => optConcat a (f p)) acc
      = optConcat acc (l.foldl (fun a p => optConcat a (f p)) none) := by
  induction l generalizing acc with
  | nil => simp [optConcat_none_right]
  | cons p rest ih =>
    simp only [List.foldl_cons]
    rw [ih (optConcat acc (f p)), ih (optConcat none (f p)), optConcat_none_left,
      optConcat_assoc]

theorem foldl_periodStep (env : Env) (freq : Freq) (s e : Date)
    (l : List (Date × Date × Calc)) (acc : Option DF) :
    l.foldl (periodStep env freq s e) acc = optConcat acc (contribsFold env freq s e l) := by
  rw [show periodStep env freq s e
      = (fun a p => optConcat a (periodContrib env freq s e p)) from
    funext fun a => funext fun p => periodStep_eq env freq s e a p]
  exact foldl_optConcat _ l acc

theorem contribsFold_append (env : Env) (freq : Freq) (s e : Date)
    (l1 l2 : List (Date × Date × Calc)) :
    contribsFold env freq s e (l1 ++ l2)
      = optConcat (contribsFold env freq s e l1) (contribsFold env freq s e l2) := by
  simp only [contribsFold, List.foldl_append]
  rw [foldl_optConcat]

theorem serviceLoop_error_iff (env : Env) (freq : Freq) (s e : Date)
    (ys : List Nat) (acc : Option DF) :
    (∃ msg, serviceLoop env freq s e ys acc = .error msg)
      ↔ ∃ y ∈ ys, price_calculation y = none := by
  induction ys generalizing acc with
  | nil => simp [serviceLoop]
  | cons y rest ih =>
    simp only [serviceLoop]
    cases hy : price_calculation y with
    | none => simp [hy]
    | some calcs =>
      rw [ih]
      constructor
      · rintro ⟨z, hz, hzn⟩
        exact ⟨z, by simp [hz], hzn⟩
      · rintro ⟨z, hz, hzn⟩
        rcases List.mem_cons.mp hz with rfl | hz'
        · rw [hy] at hzn; cases hzn
        · exact ⟨z, hz', hzn⟩

theorem serviceLoop_registered (env : Env) (freq : Freq) (s e : Date)
    (ys : List Nat) (acc : Option DF)
    (h : ∀ y ∈ ys, (price_calculation y).isSome) :
    serviceLoop env freq s e ys acc
      = .ok (ys.foldl (fun a y => (yearPeriods y).foldl (periodStep env freq s e) a) acc) := by
  induction ys generalizing acc with
  | nil => simp [serviceLoop]
  | cons y rest ih =>
    simp only [serviceLoop]
    cases hy : price_calculation y with
    | none =>
      exact absurd (h y (by simp)) (by simp [hy])
    | some calcs =>
      show serviceLoop env freq s e rest
          (List.foldl (periodStep env freq s e) acc calcs) = _
      rw [ih _ (fun z hz => h z (by simp [hz]))]
      simp [yearPeriods, hy]

theorem ingestLoop_failure (fetch : Int → Bool) (k : Int) (hfail : fetch k = false) :
    ∀ (fuel : Nat) (d : Int) (w : Option Int),
      (∀ x, d ≤ x → x < k → fetch x = true) → d ≤ k → k < d + fuel →
      ingestLoop fetch fuel d w = if d = k then w else some (k - 1) := by
  intro fuel
  induction fuel with
  | zero => intro d w _ h1 h2; omega
  | succ n ih =>
    intro d w hok h1 h2
    by_cases hd : d = k
    · subst hd
      simp [ingestLoop, hfail]
    · have hdk : d < k := by omega
      have : fetch d = true := hok d (by omega) hdk
      simp only [ingestLoop, this, if_true]
      rw [ih (d + 1) (some d) (fun x hx1 hx2 => hok x (by omega) hx2) (by omega) (by omega)]
      by_cases hd1 : d + 1 = k
      · rw [if_pos hd1, if_neg hd]
        congr 1
        omega
      · rw [if_neg hd1, if_neg hd]

/-- C9: the grid-price ingestion job fetches one day at a time from the day
after the last persisted price through tomorrow; when fetching fails at day
`k` of the gap (all earlier gap days having succeeded and been persisted),
the run ends with `k - 1` as the last persisted day, so the next run's
`date_from` is exactly `k` — never the start or the end of the gap. -/
theorem C9_ingestion_resumes_at_failed_day (L today today2 k : Int)
    (fetch : Int → Bool)
    (hk1 : L + 1 ≤ k) (hk2 : k ≤ today + 1)
    (hok : ∀ d, L + 1 ≤ d → d < k → fetch d = true) (hfail : fetch k = false) :
    update_grid_prices (some L) today fetch = some (k - 1)
      ∧ dateFrom (update_grid_prices (some L) today fetch) today2 = k := by
  have hfrom : dateFrom (some L) today = L + 1 := rfl
  have hmain : update_grid_prices (some L) today fetch = some (k - 1) := by
    unfold update_grid_prices
    rw [hfrom]
    rw [ingestLoop_failure fetch k hfail _ (L + 1) (some L) hok (by omega) (by omega)]
    · by_cases h : L + 1 = k
      · rw [if_pos h]; congr 1; omega
      · rw [if_neg h]
  refine ⟨hmain, ?_⟩
  rw [hmain]
  simp only [dateFrom]
  omega

/-- C9 witness: last persisted day 0, today = 4 (so the gap is days 1..5),
fetching fails on day 3: the run persists days 1 and 2 and the next run
starts at day 3. -/
theorem C9_witness :
    ((0 : Int) + 1 ≤ 3 ∧ (3 : Int) ≤ 4 + 1
        ∧ (∀ d : Int, 0 + 1 ≤ d → d < 3 → (decide (d < 3)) = true)
        ∧ (decide ((3 : Int) < 3)) = false)
      ∧ update_grid_prices (some 0) 4 (fun d => decide (d < 3)) = some (3 - 1)
      ∧ dateFrom (update_grid_prices (some 0) 4 (fun d => decide (d < 3))) 9 = 3 :=
  ⟨⟨by omega, by omega, fun d _ h2 => by simp [h2], by decide⟩,
    C9_ingestion_resumes_at_failed_day 0 4 9 3 (fun d => decide (d < 3))
      (by omega) (by omega) (fun d _ h2 => by simp [h2]) (by decide)⟩

/-- C10: the simulation endpoints `POST /price/simulate/total` and
`POST /price/simulate/total/detail` call `simulate_aggregated_price_total`
and `simulate_aggregated_price_total_detail` on the price service, but
`PriceService` defines neither method: the call raises `AttributeError`,
which the endpoints' `except RuntimeError` handler does not catch, so the
request fails with a missing-operation error instead of the contracted
output. -/
theorem C10_simulation_methods_missing :
    simulateTotalCallsMethod ∉ priceServiceMethods
      ∧ simulateTotalDetailCallsMethod ∉ priceServiceMethods := by
  decide

theorem cacheGet_cacheSet_self {V : Type} (m : CacheMap V) (k : Nat)
    (p : ℚ × Option V) : cacheGet (cacheSet m k p) k = some p := by
  simp [cacheGet, cacheSet]

/-- C1 counterexample: for a memoized function whose computation returns
`None` (as `influx.get_monthly_belpex` does when no data exists), a call
immediately followed by a second call with identical arguments within the TTL
window invokes the underlying computation twice, not once: the wrapper's
`cache is not None` test treats the stored `None` as a miss. -/
theorem C1_counterexample :
    ((1 : ℚ) - 0 < 10)
      ∧ (wrapperCall 10 42 none 0 (fun _ => none) : CallResult Unit).invoked = true
      ∧ cacheGet (wrapperCall 10 42 (none : Option Unit) 0 (fun _ => none)).cache 42
          = some (0, none)
      ∧ (wrapperCall 10 42 none 1
          (wrapperCall 10 42 (none : Option Unit) 0 (fun _ => none)).cache).invoked = true := by
  refine ⟨by norm_num, rfl, rfl, ?_⟩
  rfl

/-- C1 (amended): for computations returning a non-`None` value the claim
holds: with no entry stored, a first call invokes the computation and stores
it; a second call with identical arguments within the TTL window returns the
stored value without invoking; a call after the TTL has elapsed since the
stored entry's timestamp invokes the computation again and stores the fresh
result. -/
theorem C1_ttl_cache_amended {V : Type} (seconds : ℚ) (key : Nat) (v : V)
    (compute2 compute3 : Option V) (m0 : CacheMap V) (t1 t2 t3 : ℚ)
    (h0 : cacheGet m0 key = none) (h12 : t2 - t1 < seconds)
    (h13 : seconds < t3 - t1) :
    (wrapperCall seconds key (some v) t1 m0).invoked = true
      ∧ (wrapperCall seconds key compute2 t2
          (wrapperCall seconds key (some v) t1 m0).cache).invoked = false
      ∧ (wrapperCall seconds key compute2 t2
          (wrapperCall seconds key (some v) t1 m0).cache).value = some v
      ∧ (wrapperCall seconds key compute3 t3
          (wrapperCall seconds key (some v) t1 m0).cache).invoked = true
      ∧ (wrapperCall seconds key compute3 t3
          (wrapperCall seconds key (some v) t1 m0).cache).value = compute3
      ∧ cacheGet (wrapperCall seconds key compute3 t3
          (wrapperCall seconds key (some v) t1 m0).cache).cache key
          = some (t3, compute3) := by
  have h1 : wrapperCall seconds key (some v) t1 m0
      = ⟨some v, cacheSet m0 key (t1, some v), true⟩ := by
    unfold wrapperCall
    rw [h0]
  have hget : cacheGet (cacheSet m0 key (t1, some v)) key = some (t1, some v) :=
    cacheGet_cacheSet_self m0 key (t1, some v)
  have h2 : wrapperCall seconds key compute2 t2 (cacheSet m0 key (t1, some v))
      = ⟨some v, cacheSet m0 key (t1, some v), false⟩ := by
    unfold wrapperCall
    rw [hget]
    simp only [if_pos (show t2 - seconds ≤ t1 by linarith)]
  have h3 : wrapperCall seconds key compute3 t3 (cacheSet m0 key (t1, some v))
      = ⟨compute3, cacheSet (cacheSet m0 key (t1, some v)) key (t3, compute3), true⟩ := by
    unfold wrapperCall
    rw [hget]
    simp only [if_neg (show ¬(t3 - seconds ≤ t1) by intro h; linarith)]
  rw [h1]
  simp [h2, h3, cacheGet_cacheSet_self]

/-- C1 witness: TTL 10 seconds, first call at t=0, second at t=1 (within the
window, served from cache), third at t=11.5 (expired, recomputed and
restored). -/
theorem C1_witness :
    (cacheGet (fun _ => none : CacheMap Unit) 7 = none
        ∧ (1 : ℚ) - 0 < 10 ∧ (10 : ℚ) < 11.5 - 0)
      ∧ ((wrapperCall 10 7 (some ()) 0 (fun _ => none : CacheMap Unit)).invoked = true
        ∧ (wrapperCall 10 7 none 1
            (wrapperCall 10 7 (some ()) 0 (fun _ => none : CacheMap Unit)).cache).invoked = false
        ∧ (wrapperCall 10 7 none 1
            (wrapperCall 10 7 (some ()) 0 (fun _ => none : CacheMap Unit)).cache).value = some ()
        ∧ (wrapperCall 10 7 (some ()) 11.5
            (wrapperCall 10 7 (some ()) 0 (fun _ => none : CacheMap Unit)).cache).invoked = true
        ∧ (wrapperCall 10 7 (some ()) 11.5
            (wrapperCall 10 7 (some ()) 0 (fun _ => none : CacheMap Unit)).cache).value = some ()
        ∧ cacheGet (wrapperCall 10 7 (some ()) 11.5
            (wrapperCall 10 7 (some ()) 0 (fun _ => none : CacheMap Unit)).cache).cache 7
            = some (11.5, some ())) :=
  ⟨⟨rfl, by norm_num, by norm_num⟩,
    C1_ttl_cache_amended 10 7 () none (some ()) (fun _ => none) 0 1 11.5
      rfl (by norm_num) (by norm_num)⟩

theorem crcAcc_append (i : Nat) (a b : List Nat) :
    crcAcc i (a ++ b) = crcAcc (crcAcc i a) b := by
  simp [crcAcc, List.foldl_append]

theorem crc32_eq_crcAcc (bs : List Nat) :
    crc32 bs = Nat.xor (crcAcc 4294967295 bs) 4294967295 := rfl

/-- Two distinct argument tuples for the memoized `get_belpex_range` whose
derived 32-bit cache keys collide. -/
theorem getBelpexRangeKey_collision :
    getBelpexRangeKey (pyDatetimeRepr 2023 1 13 10 42) (pyDatetimeRepr 2030 12 24 21 47)
      = getBelpexRangeKey (pyDatetimeRepr 2023 7 27 6 7) (pyDatetimeRepr 2028 1 12 15 13) := by
  have hP0 : crcAcc 4294967295 keyChunk0 = 3019882668 := by decide
  have hP1 : crcAcc 3019882668 keyChunk1 = 959506845 := by decide
  have hP2 : crcAcc 959506845 keyChunkP2 = 2078955168 := by decide
  have hP3 : crcAcc 2078955168 keyChunkP3 = 3747672183 := by decide
  have hQ2 : crcAcc 959506845 keyChunkQ2 = 3763277245 := by decide
  have hQ3 : crcAcc 3763277245 keyChunkQ3 = 3747672183 := by decide
  have hPs : strBytes ("get_belpex_range"
      ++ ("(" ++ influxSelfRepr ++ ", " ++ pyDatetimeRepr 2023 1 13 10 42
          ++ ", " ++ pyDatetimeRepr 2030 12 24 21 47 ++ ")") ++ "\x7b\x7d")
      = keyChunk0 ++ keyChunk1 ++ keyChunkP2 ++ keyChunkP3 := by decide
  have hQs : strBytes ("get_belpex_range"
      ++ ("(" ++ influxSelfRepr ++ ", " ++ pyDatetimeRepr 2023 7 27 6 7
          ++ ", " ++ pyDatetimeRepr 2028 1 12 15 13 ++ ")") ++ "\x7b\x7d")
      = keyChunk0 ++ keyChunk1 ++ keyChunkQ2 ++ keyChunkQ3 := by decide
  simp only [getBelpexRangeKey, fn_hash]
  rw [hPs, hQs]
  simp only [crc32_eq_crcAcc, crcAcc_append]
  rw [hP0, hP1, hP2, hP3, hQ2, hQ3]

/-- C2 counterexample: two calls to the memoized `get_belpex_range` with
different `(start, end)` argument values (and the same bound instance) derive
the same cache key, so the claimed injectivity of key derivation fails and the
two calls share one cache entry. -/
theorem C2_counterexample :
    ((2023, 1, 13, 10, 42), (2030, 12, 24, 21, 47))
        ≠ ((2023, 7, 27, 6, 7), (2028, 1, 12, 15, 13))
      ∧ pyDatetimeRepr 2023 1 13 10 42 ≠ pyDatetimeRepr 2023 7 27 6 7
      ∧ getBelpexRangeKey (pyDatetimeRepr 2023 1 13 10 42) (pyDatetimeRepr 2030 12 24 21 47)
          = getBelpexRangeKey (pyDatetimeRepr 2023 7 27 6 7) (pyDatetimeRepr 2028 1 12 15 13) :=
  ⟨by decide, by decide, getBelpexRangeKey_collision⟩

/-- C2 (amended): key derivation is deterministic — equal function and equal
stringified arguments always yield equal keys — but it is not injective: the
key is a CRC-32 truncated to 32 bits, and distinct argument values for one
memoized function can derive the same key and hence share one cache entry. -/
theorem C2_key_deterministic_not_injective :
    (∀ f a kw f2 a2 kw2, f = f2 → a = a2 → kw = kw2 → fn_hash f a kw = fn_hash f2 a2 kw2)
      ∧ ∃ s1 e1 s2 e2 : String, (s1, e1) ≠ (s2, e2)
          ∧ getBelpexRangeKey s1 e1 = getBelpexRangeKey s2 e2 := by
  constructor
  · intro f a kw f2 a2 kw2 hf ha hkw
    rw [hf, ha, hkw]
  · exact ⟨pyDatetimeRepr 2023 1 13 10 42, pyDatetimeRepr 2030 12 24 21 47,
      pyDatetimeRepr 2023 7 27 6 7, pyDatetimeRepr 2028 1 12 15 13,
      by decide, getBelpexRangeKey_collision⟩

/-- C4 counterexample: for a row with one kWh of rate-1 injection priced by
`PriceCalculationWaseWind2026` (injection price 0.02), the breakdown's
`injection` field stores `-0.02` (the negated injection price), so
`total = fixed + peak + distribution + consumption − injection` fails:
the code computes `total` by subtracting the injection price, and then stores
the price's negation in the `injection` field. -/
theorem C4_counterexample :
    (calculate_price .waseWind2026 envNoData ⟨⟨⟨2026, 6, 1⟩, 0⟩, 0, 0, 1, 0⟩).total
      ≠ (calculate_price .waseWind2026 envNoData ⟨⟨⟨2026, 6, 1⟩, 0⟩, 0, 0, 1, 0⟩).fixed
        + (calculate_price .waseWind2026 envNoData ⟨⟨⟨2026, 6, 1⟩, 0⟩, 0, 0, 1, 0⟩).peak
        + (calculate_price .waseWind2026 envNoData ⟨⟨⟨2026, 6, 1⟩, 0⟩, 0, 0, 1, 0⟩).distribution
        + (calculate_price .waseWind2026 envNoData ⟨⟨⟨2026, 6, 1⟩, 0⟩, 0, 0, 1, 0⟩).consumption
        - (calculate_price .waseWind2026 envNoData ⟨⟨⟨2026, 6, 1⟩, 0⟩, 0, 0, 1, 0⟩).injection := by
  simp only [calculate_price, get_subscription_price, get_eneryfund_price,
    get_distribution_price_fixed, get_distribution_price_per_kW_peak,
    get_distribution_price_per_kWh, get_consumption_rate1_price,
    get_consumption_rate2_price, get_injection_rate1_price,
    get_injection_rate2_price, get_monthly_belpex, envNoData, isleap, daysInMonth]
  norm_num

/-- C4 (amended): the breakdown's `injection` field stores the negated
injection price, so the identity that holds for every produced breakdown is
`total = fixed + peak + distribution + consumption + injection` — equivalently
the six stored fields satisfy "total is the sum of the five components", with
the injection credit already carrying its sign in the stored field. -/
theorem C4_total_sums_stored_fields (c : Calc) (env : Env) (r : Row) :
    (calculate_price c env r).total
      = (calculate_price c env r).fixed + (calculate_price c env r).peak
        + (calculate_price c env r).distribution
        + (calculate_price c env r).consumption
        + (calculate_price c env r).injection := by
  simp only [calculate_price]
  ring

/-- C6: `calculate_price` prorates with exactly Q = 365×24×4 quarter hours
(+96 in a leap year) for the row's calendar year and M = days-in-month×24×4
for its calendar month: `fixed = subscription/Q + energyfund/Q +
fixed_distribution/M` and `peak = distribution_price_per_kW_peak ×
invoice_peak(year, month) / Q`. -/
theorem C6_proration (c : Calc) (env : Env) (r : Row) :
    (calculate_price c env r).fixed
        = get_subscription_price c
            / ((365 * 24 * 4 : ℚ) + if isleap r.ts.date.year then 96 else 0)
          + get_eneryfund_price c
            / ((365 * 24 * 4 : ℚ) + if isleap r.ts.date.year then 96 else 0)
          + get_distribution_price_fixed c
            / ((daysInMonth r.ts.date.year r.ts.date.month : ℚ) * 24 * 4)
      ∧ (calculate_price c env r).peak
        = get_distribution_price_per_kW_peak c
            * env.invoicePeak r.ts.date.year r.ts.date.month
            / ((365 * 24 * 4 : ℚ) + if isleap r.ts.date.year then 96 else 0) := by
  constructor <;>
  · simp only [calculate_price]
    by_cases h : isleap r.ts.date.year <;> simp [h] <;> norm_num

/-- C7: a row whose four rate fields are all zero yields
`consumption = injection = distribution = 0` and `total = fixed + peak`. -/
theorem C7_zero_row (c : Calc) (env : Env) (r : Row)
    (h1 : r.consumption_rate1 = 0) (h2 : r.consumption_rate2 = 0)
    (h3 : r.injection_rate1 = 0) (h4 : r.injection_rate2 = 0) :
    (calculate_price c env r).consumption = 0
      ∧ (calculate_price c env r).injection = 0
      ∧ (calculate_price c env r).distribution = 0
      ∧ (calculate_price c env r).total
          = (calculate_price c env r).fixed + (calculate_price c env r).peak := by
  simp only [calculate_price, h1, h2, h3, h4]
  norm_num

/-- C7 witness: the all-zero row at 2025-03-10 under the 2025 calculator. -/
theorem C7_witness :
    ((⟨⟨⟨2025, 3, 10⟩, 0⟩, 0, 0, 0, 0⟩ : Row).consumption_rate1 = 0
        ∧ (⟨⟨⟨2025, 3, 10⟩, 0⟩, 0, 0, 0, 0⟩ : Row).consumption_rate2 = 0
        ∧ (⟨⟨⟨2025, 3, 10⟩, 0⟩, 0, 0, 0, 0⟩ : Row).injection_rate1 = 0
        ∧ (⟨⟨⟨2025, 3, 10⟩, 0⟩, 0, 0, 0, 0⟩ : Row).injection_rate2 = 0)
      ∧ ((calculate_price .waseWind2025 envNoData ⟨⟨⟨2025, 3, 10⟩, 0⟩, 0, 0, 0, 0⟩).consumption = 0
        ∧ (calculate_price .waseWind2025 envNoData ⟨⟨⟨2025, 3, 10⟩, 0⟩, 0, 0, 0, 0⟩).injection = 0
        ∧ (calculate_price .waseWind2025 envNoData ⟨⟨⟨2025, 3, 10⟩, 0⟩, 0, 0, 0, 0⟩).distribution = 0
        ∧ (calculate_price .waseWind2025 envNoData ⟨⟨⟨2025, 3, 10⟩, 0⟩, 0, 0, 0, 0⟩).total
            = (calculate_price .waseWind2025 envNoData ⟨⟨⟨2025, 3, 10⟩, 0⟩, 0, 0, 0, 0⟩).fixed
              + (calculate_price .waseWind2025 envNoData ⟨⟨⟨2025, 3, 10⟩, 0⟩, 0, 0, 0, 0⟩).peak) :=
  ⟨⟨rfl, rfl, rfl, rfl⟩,
    C7_zero_row .waseWind2025 envNoData ⟨⟨⟨2025, 3, 10⟩, 0⟩, 0, 0, 0, 0⟩ rfl rfl rfl rfl⟩

/-- C3 counterexample: requesting `[2026-12-01, 2027-01-01)` — whose half-open
range contains only dates of year 2026, a year with registered calculations —
still raises "No price calculations exist for the year 2027", because the
year loop runs over `range(start.year, end.year + 1)` and so visits the
end date's year even when the range contains no date of it. -/
theorem C3_counterexample :
    get_aggregated_price envNoData ⟨2026, 12, 1⟩ ⟨2027, 1, 1⟩ .ms
        = .error ("No price calculations exist for the year 2027")
      ∧ (∀ d : Date, d.Valid → (⟨2026, 12, 1⟩ : Date).toNat ≤ d.toNat
          → d.toNat < (⟨2027, 1, 1⟩ : Date).toNat → d.year = 2026)
      ∧ (price_calculation 2026).isSome := by
  refine ⟨by decide, ?_, by decide⟩
  intro d hd h1 h2
  obtain ⟨m1, m2, d1, d2⟩ := hd
  have hdm := daysInMonth_le d.year d.month
  simp only [Date.toNat] at h1 h2
  omega

/-- C3 (amended): `get_aggregated_price(start_date, end_date, freq)` raises
the "No price calculations exist for the year Y" error if and only if some
year of the closed interval `[start_date.year, end_date.year]` has no
registered calculation — the end date's year counts even when the half-open
date range contains no date of it (an end date of January 1 of year Y+1 fails
for Y+1).  Sub-range intersection never raises: a zero-length or reversed
boundary intersection contributes nothing. -/
theorem C3_error_iff_missing_year (env : Env) (s e : Date) (freq : Freq) :
    (∃ msg, get_aggregated_price env s e freq = .error msg)
      ↔ ∃ y, s.year ≤ y ∧ y ≤ e.year ∧ price_calculation y = none := by
  unfold get_aggregated_price
  rw [serviceLoop_error_iff]
  unfold years_to_calculate
  constructor
  · rintro ⟨y, hy, hn⟩
    rw [List.mem_range'_1] at hy
    exact ⟨y, by omega, by omega, hn⟩
  · rintro ⟨y, h1, h2, hn⟩
    exact ⟨y, List.mem_range'_1.mpr ⟨h1, by omega⟩, hn⟩

theorem dmax_toNat (a b : Date) : (dmax a b).toNat = max a.toNat b.toNat := by
  unfold dmax
  split <;> omega

theorem dmin_toNat (a b : Date) : (dmin a b).toNat = min a.toNat b.toNat := by
  unfold dmin
  split <;> omega

theorem yearFold_eq (env : Env) (freq : Freq) (s e : Date) (ys : List Nat)
    (acc : Option DF) :
    ys.foldl (fun a y => (yearPeriods y).foldl (periodStep env freq s e) a) acc
      = optConcat acc (contribsFold env freq s e (List.flatten (ys.map yearPeriods))) := by
  induction ys generalizing acc with
  | nil => simp [contribsFold, optConcat_none_right]
  | cons y rest ih =>
    simp only [List.foldl_cons, List.map_cons, List.flatten_cons]
    rw [foldl_periodStep, ih, contribsFold_append, optConcat_assoc]

theorem get_aggregated_price_ok (env : Env) (freq : Freq) (s e : Date)
    (h : ∀ y ∈ years_to_calculate s e, (price_calculation y).isSome) :
    get_aggregated_price env s e freq
      = .ok (contribsFold env freq s e
          (List.flatten ((years_to_calculate s e).map yearPeriods))) := by
  unfold get_aggregated_price
  rw [serviceLoop_registered env freq s e _ none h, yearFold_eq, optConcat_none_left]

theorem periodContrib_congr_left (env : Env) (freq : Freq) (s e b cs ce : Date)
    (c : Calc) (hce : ce.toNat ≤ b.toNat) (hbe : b.toNat < e.toNat)
    (hbv : b.Valid) (hcev : ce.Valid) :
    periodContrib env freq s e (cs, ce, c) = periodContrib env freq s b (cs, ce, c) := by
  unfold periodContrib
  simp only
  rw [dmin_eq_right (show ce.toNat < e.toNat by omega), dmin_eq_right_valid hbv hcev hce]

theorem periodContrib_congr_right (env : Env) (freq : Freq) (s e b cs ce : Date)
    (c : Calc) (hcs : b.toNat ≤ cs.toNat) (hsb : s.toNat < b.toNat) :
    periodContrib env freq s e (cs, ce, c) = periodContrib env freq b e (cs, ce, c) := by
  unfold periodContrib
  simp only
  rw [dmax_eq_right (show s.toNat ≤ cs.toNat by omega), dmax_eq_right hcs]

theorem periodContrib_dropRight (env : Env) (freq : Freq) (s b cs ce : Date)
    (c : Calc) (hcs : b.toNat ≤ cs.toNat) (hsb : s.toNat < b.toNat) :
    periodContrib env freq s b (cs, ce, c) = none := by
  unfold periodContrib
  simp only
  rw [dmax_eq_right (show s.toNat ≤ cs.toNat by omega)]
  split
  · rfl
  · exact calc_get_aggregated_price_empty (by have := dmin_toNat b ce; omega)

theorem periodContrib_dropLeft (env : Env) (freq : Freq) (b e cs ce : Date)
    (c : Calc) (hce : ce.toNat ≤ b.toNat) (hbe : b.toNat < e.toNat) :
    periodContrib env freq b e (cs, ce, c) = none := by
  unfold periodContrib
  simp only
  rw [dmin_eq_right (show ce.toNat < e.toNat by omega)]
  split
  · rfl
  · exact calc_get_aggregated_price_empty (by have := dmax_toNat b cs; omega)

set_option maxHeartbeats 1000000

/-- C5: for a requested range `[start, end)` crossing a tariff period
boundary `b` of the registry (with every year of the closed year range
registered), `get_aggregated_price(start, end, freq)` equals the
chronological concatenation of `get_aggregated_price(start, b, freq)` and
`get_aggregated_price(b, end, freq)` — the sub-ranges clipped to the period
boundary — and a second call with identical arguments and unchanged data
yields identical output. -/
theorem C5_range_splitting (env : Env) (freq : Freq) (s e b : Date)
    (hs : s.Valid) (he : e.Valid)
    (hb : b = ⟨2025, 1, 1⟩ ∨ b = ⟨2026, 1, 1⟩ ∨ b = ⟨2026, 2, 1⟩)
    (hsb : s.toNat < b.toNat) (hbe : b.toNat < e.toNat)
    (hys : 2024 ≤ s.year) (hye : e.year ≤ 2026) :
    get_aggregated_price env s e freq
        = exceptConcat (get_aggregated_price env s b freq)
            (get_aggregated_price env b e freq)
      ∧ get_aggregated_price env s e freq = get_aggregated_price env s e freq := by
  refine ⟨?_, rfl⟩
  obtain ⟨hsm1, hsm2, hsd1, hsd2⟩ := hs
  obtain ⟨hem1, hem2, hed1, hed2⟩ := he
  have hsdm := daysInMonth_le s.year s.month
  have hedm := daysInMonth_le e.year e.month
  rcases hb with rfl | rfl | rfl
  · -- boundary 2025-01-01
    have hsb2 := hsb
    have hbe2 := hbe
    simp only [Date.toNat] at hsb2 hbe2
    have hsy : s.year = 2024 := by omega
    have heys : e.year = 2025 ∨ e.year = 2026 := by omega
    rcases heys with hey | hey
    · -- e.year = 2025
      have hA : years_to_calculate s e = [2024, 2025] := by
        unfold years_to_calculate
        rw [hsy, hey]
        decide
      have hB : years_to_calculate s ⟨2025, 1, 1⟩ = [2024, 2025] := by
        unfold years_to_calculate
        rw [hsy]
        decide
      have hC : years_to_calculate ⟨2025, 1, 1⟩ e = [2025] := by
        unfold years_to_calculate
        rw [hey]
        decide
      have e1 := get_aggregated_price_ok env freq s e (by rw [hA]; decide)
      have e2 := get_aggregated_price_ok env freq s ⟨2025, 1, 1⟩ (by rw [hB]; decide)
      have e3 := get_aggregated_price_ok env freq ⟨2025, 1, 1⟩ e (by rw [hC]; decide)
      rw [hA] at e1
      rw [hB] at e2
      rw [hC] at e3
      simp only [List.map_cons, List.map_nil, yearPeriods, price_calculation,
        Option.getD_some, List.flatten_cons, List.flatten_nil, List.append_nil,
        List.cons_append, List.nil_append] at e1 e2 e3
      rw [e1, e2, e3]
      simp only [exceptConcat]
      rw [Except.ok.injEq]
      simp only [contribsFold, List.foldl_cons, List.foldl_nil]
      rw [periodContrib_congr_left env freq s e ⟨2025, 1, 1⟩ ⟨2024, 1, 1⟩ ⟨2025, 1, 1⟩
          .waseWind2024 (by decide) hbe (by decide) (by decide),
        periodContrib_congr_right env freq s e ⟨2025, 1, 1⟩ ⟨2025, 1, 1⟩ ⟨2026, 1, 1⟩
          .waseWind2025 (by decide) hsb,
        periodContrib_dropRight env freq s ⟨2025, 1, 1⟩ ⟨2025, 1, 1⟩ ⟨2026, 1, 1⟩
          .waseWind2025 (by decide) hsb]
      simp [optConcat_none_left, optConcat_none_right, optConcat_assoc]
    · -- e.year = 2026
      have hA : years_to_calculate s e = [2024, 2025, 2026] := by
        unfold years_to_calculate
        rw [hsy, hey]
        decide
      have hB : years_to_calculate s ⟨2025, 1, 1⟩ = [2024, 2025] := by
        unfold years_to_calculate
        rw [hsy]
        decide
      have hC : years_to_calculate ⟨2025, 1, 1⟩ e = [2025, 2026] := by
        unfold years_to_calculate
        rw [hey]
        decide
      have e1 := get_aggregated_price_ok env freq s e (by rw [hA]; decide)
      have e2 := get_aggregated_price_ok env freq s ⟨2025, 1, 1⟩ (by rw [hB]; decide)
      have e3 := get_aggregated_price_ok env freq ⟨2025, 1, 1⟩ e (by rw [hC]; decide)
      rw [hA] at e1
      rw [hB] at e2
      rw [hC] at e3
      simp only [List.map_cons, List.map_nil, yearPeriods, price_calculation,
        Option.getD_some, List.flatten_cons, List.flatten_nil, List.append_nil,
        List.cons_append, List.nil_append] at e1 e2 e3
      rw [e1, e2, e3]
      simp only [exceptConcat]
      rw [Except.ok.injEq]
      simp only [contribsFold, List.foldl_cons, List.foldl_nil]
      rw [periodContrib_congr_left env freq s e ⟨2025, 1, 1⟩ ⟨2024, 1, 1⟩ ⟨2025, 1, 1⟩
          .waseWind2024 (by decide) hbe (by decide) (by decide),
        periodContrib_congr_right env freq s e ⟨2025, 1, 1⟩ ⟨2025, 1, 1⟩ ⟨2026, 1, 1⟩
          .waseWind2025 (by decide) hsb,
        periodContrib_congr_right env freq s e ⟨2025, 1, 1⟩ ⟨2026, 1, 1⟩ ⟨2026, 2, 1⟩
          .waseWind2026 (by decide) hsb,
        periodContrib_congr_right env freq s e ⟨2025, 1, 1⟩ ⟨2026, 2, 1⟩ ⟨2027, 1, 1⟩
          .waseWindDynamic2026 (by decide) hsb,
        periodContrib_dropRight env freq s ⟨2025, 1, 1⟩ ⟨2025, 1, 1⟩ ⟨2026, 1, 1⟩
          .waseWind2025 (by decide) hsb]
      simp [optConcat_none_left, optConcat_none_right, optConcat_assoc]
  · -- boundary 2026-01-01
    have hsb2 := hsb
    have hbe2 := hbe
    simp only [Date.toNat] at hsb2 hbe2
    have hey : e.year = 2026 := by omega
    have hsys : s.year = 2024 ∨ s.year = 2025 := by omega
    rcases hsys with hsy | hsy
    · -- s.year = 2024
      have hA : years_to_calculate s e = [2024, 2025, 2026] := by
        unfold years_to_calculate
        rw [hsy, hey]
        decide
      have hB : years_to_calculate s ⟨2026, 1, 1⟩ = [2024, 2025, 2026] := by
        unfold years_to_calculate
        rw [hsy]
        decide
      have hC : years_to_calculate ⟨2026, 1, 1⟩ e = [2026] := by
        unfold years_to_calculate
        rw [hey]
        decide
      have e1 := get_aggregated_price_ok env freq s e (by rw [hA]; decide)
      have e2 := get_aggregated_price_ok env freq s ⟨2026, 1, 1⟩ (by rw [hB]; decide)
      have e3 := get_aggregated_price_ok env freq ⟨2026, 1, 1⟩ e (by rw [hC]; decide)
      rw [hA] at e1
      rw [hB] at e2
      rw [hC] at e3
      simp only [List.map_cons, List.map_nil, yearPeriods, price_calculation,
        Option.getD_some, List.flatten_cons, List.flatten_nil, List.append_nil,
        List.cons_append, List.nil_append] at e1 e2 e3
      rw [e1, e2, e3]
      simp only [exceptConcat]
      rw [Except.ok.injEq]
      simp only [contribsFold, List.foldl_cons, List.foldl_nil]
      rw [periodContrib_congr_left env freq s e ⟨2026, 1, 1⟩ ⟨2024, 1, 1⟩ ⟨2025, 1, 1⟩
          .waseWind2024 (by decide) hbe (by decide) (by decide),
        periodContrib_congr_left env freq s e ⟨2026, 1, 1⟩ ⟨2025, 1, 1⟩ ⟨2026, 1, 1⟩
          .waseWind2025 (by decide) hbe (by decide) (by decide),
        periodContrib_congr_right env freq s e ⟨2026, 1, 1⟩ ⟨2026, 1, 1⟩ ⟨2026, 2, 1⟩
          .waseWind2026 (by decide) hsb,
        periodContrib_congr_right env freq s e ⟨2026, 1, 1⟩ ⟨2026, 2, 1⟩ ⟨2027, 1, 1⟩
          .waseWindDynamic2026 (by decide) hsb,
        periodContrib_dropRight env freq s ⟨2026, 1, 1⟩ ⟨2026, 1, 1⟩ ⟨2026, 2, 1⟩
          .waseWind2026 (by decide) hsb,
        periodContrib_dropRight env freq s ⟨2026, 1, 1⟩ ⟨2026, 2, 1⟩ ⟨2027, 1, 1⟩
          .waseWindDynamic2026 (by decide) hsb]
      simp [optConcat_none_left, optConcat_none_right, optConcat_assoc]
    · -- s.year = 2025
      have hA : years_to_calculate s e = [2025, 2026] := by
        unfold years_to_calculate
        rw [hsy, hey]
        decide
      have hB : years_to_calculate s ⟨2026, 1, 1⟩ = [2025, 2026] := by
        unfold years_to_calculate
        rw [hsy]
        decide
      have hC : years_to_calculate ⟨2026, 1, 1⟩ e = [2026] := by
        unfold years_to_calculate
        rw [hey]
        decide
      have e1 := get_aggregated_price_ok env freq s e (by rw [hA]; decide)
      have e2 := get_aggregated_price_ok env freq s ⟨2026, 1, 1⟩ (by rw [hB]; decide)
      have e3 := get_aggregated_price_ok env freq ⟨2026, 1, 1⟩ e (by rw [hC]; decide)
      rw [hA] at e1
      rw [hB] at e2
      rw [hC] at e3
      simp only [List.map_cons, List.map_nil, yearPeriods, price_calculation,
        Option.getD_some, List.flatten_cons, List.flatten_nil, List.append_nil,
        List.cons_append, List.nil_append] at e1 e2 e3
      rw [e1, e2, e3]
      simp only [exceptConcat]
      rw [Except.ok.injEq]
      simp only [contribsFold, List.foldl_cons, List.foldl_nil]
      rw [periodContrib_congr_left env freq s e ⟨2026, 1, 1⟩ ⟨2025, 1, 1⟩ ⟨2026, 1, 1⟩
          .waseWind2025 (by decide) hbe (by decide) (by decide),
        periodContrib_congr_right env freq s e ⟨2026, 1, 1⟩ ⟨2026, 1, 1⟩ ⟨2026, 2, 1⟩
          .waseWind2026 (by decide) hsb,
        periodContrib_congr_right env freq s e ⟨2026, 1, 1⟩ ⟨2026, 2, 1⟩ ⟨2027, 1, 1⟩
          .waseWindDynamic2026 (by decide) hsb,
        periodContrib_dropRight env freq s ⟨2026, 1, 1⟩ ⟨2026, 1, 1⟩ ⟨2026, 2, 1⟩
          .waseWind2026 (by decide) hsb,
        periodContrib_dropRight env freq s ⟨2026, 1, 1⟩ ⟨2026, 2, 1⟩ ⟨2027, 1, 1⟩
          .waseWindDynamic2026 (by decide) hsb]
      simp [optConcat_none_left, optConcat_none_right, optConcat_assoc]
  · -- boundary 2026-02-01
    have hsb2 := hsb
    have hbe2 := hbe
    simp only [Date.toNat] at hsb2 hbe2
    have hey : e.year = 2026 := by omega
    have hsys : s.year = 2024 ∨ s.year = 2025 ∨ s.year = 2026 := by omega
    rcases hsys with hsy | hsy | hsy
    · -- s.year = 2024
      have hA : years_to_calculate s e = [2024, 2025, 2026] := by
        unfold years_to_calculate
        rw [hsy, hey]
        decide
      have hB : years_to_calculate s ⟨2026, 2, 1⟩ = [2024, 2025, 2026] := by
        unfold years_to_calculate
        rw [hsy]
        decide
      have hC : years_to_calculate ⟨2026, 2, 1⟩ e = [2026] := by
        unfold years_to_calculate
        rw [hey]
        decide
      have e1 := get_aggregated_price_ok env freq s e (by rw [hA]; decide)
      have e2 := get_aggregated_price_ok env freq s ⟨2026, 2, 1⟩ (by rw [hB]; decide)
      have e3 := get_aggregated_price_ok env freq ⟨2026, 2, 1⟩ e (by rw [hC]; decide)
      rw [hA] at e1
      rw [hB] at e2
      rw [hC] at e3
      simp only [List.map_cons, List.map_nil, yearPeriods, price_calculation,
        Option.getD_some, List.flatten_cons, List.flatten_nil, List.append_nil,
        List.cons_append, List.nil_append] at e1 e2 e3
      rw [e1, e2, e3]
      simp only [exceptConcat]
      rw [Except.ok.injEq]
      simp only [contribsFold, List.foldl_cons, List.foldl_nil]
      rw [periodContrib_congr_left env freq s e ⟨2026, 2, 1⟩ ⟨2024, 1, 1⟩ ⟨2025, 1, 1⟩
          .waseWind2024 (by decide) hbe (by decide) (by decide),
        periodContrib_congr_left env freq s e ⟨2026, 2, 1⟩ ⟨2025, 1, 1⟩ ⟨2026, 1, 1⟩
          .waseWind2025 (by decide) hbe (by decide) (by decide),
        periodContrib_congr_left env freq s e ⟨2026, 2, 1⟩ ⟨2026, 1, 1⟩ ⟨2026, 2, 1⟩
          .waseWind2026 (by decide) hbe (by decide) (by decide),
        periodContrib_congr_right env freq s e ⟨2026, 2, 1⟩ ⟨2026, 2, 1⟩ ⟨2027, 1, 1⟩
          .waseWindDynamic2026 (by decide) hsb,
        periodContrib_dropRight env freq s ⟨2026, 2, 1⟩ ⟨2026, 2, 1⟩ ⟨2027, 1, 1⟩
          .waseWindDynamic2026 (by decide) hsb,
        periodContrib_dropLeft env freq ⟨2026, 2, 1⟩ e ⟨2026, 1, 1⟩ ⟨2026, 2, 1⟩
          .waseWind2026 (by decide) hbe]
      simp [optConcat_none_left, optConcat_none_right, optConcat_assoc]
    · -- s.year = 2025
      have hA : years_to_calculate s e = [2025, 2026] := by
        unfold years_to_calculate
        rw [hsy, hey]
        decide
      have hB : years_to_calculate s ⟨2026, 2, 1⟩ = [2025, 2026] := by
        unfold years_to_calculate
        rw [hsy]
        decide
      have hC : years_to_calculate ⟨2026, 2, 1⟩ e = [2026] := by
        unfold years_to_calculate
        rw [hey]
        decide
      have e1 := get_aggregated_price_ok env freq s e (by rw [hA]; decide)
      have e2 := get_aggregated_price_ok env freq s ⟨2026, 2, 1⟩ (by rw [hB]; decide)
      have e3 := get_aggregated_price_ok env freq ⟨2026, 2, 1⟩ e (by rw [hC]; decide)
      rw [hA] at e1
      rw [hB] at e2
      rw [hC] at e3
      simp only [List.map_cons, List.map_nil, yearPeriods, price_calculation,
        Option.getD_some, List.flatten_cons, List.flatten_nil, List.append_nil,
        List.cons_append, List.nil_append] at e1 e2 e3
      rw [e1, e2, e3]
      simp only [exceptConcat]
      rw [Except.ok.injEq]
      simp only [contribsFold, List.foldl_cons, List.foldl_nil]
      rw [periodContrib_congr_left env freq s e ⟨2026, 2, 1⟩ ⟨2025, 1, 1⟩ ⟨2026, 1, 1⟩
          .waseWind2025 (by decide) hbe (by decide) (by decide),
        periodContrib_congr_left env freq s e ⟨2026, 2, 1⟩ ⟨2026, 1, 1⟩ ⟨2026, 2, 1⟩
          .waseWind2026 (by decide) hbe (by decide) (by decide),
        periodContrib_congr_right env freq s e ⟨2026, 2, 1⟩ ⟨2026, 2, 1⟩ ⟨2027, 1, 1⟩
          .waseWindDynamic2026 (by decide) hsb,
        periodContrib_dropRight env freq s ⟨2026, 2, 1⟩ ⟨2026, 2, 1⟩ ⟨2027, 1, 1⟩
          .waseWindDynamic2026 (by decide) hsb,
        periodContrib_dropLeft env freq ⟨2026, 2, 1⟩ e ⟨2026, 1, 1⟩ ⟨2026, 2, 1⟩
          .waseWind2026 (by decide) hbe]
      simp [optConcat_none_left, optConcat_none_right, optConcat_assoc]
    · -- s.year = 2026
      have hA : years_to_calculate s e = [2026] := by
        unfold years_to_calculate
        rw [hsy, hey]
        decide
      have hB : years_to_calculate s ⟨2026, 2, 1⟩ = [2026] := by
        unfold years_to_calculate
        rw [hsy]
        decide
      have hC : years_to_calculate ⟨2026, 2, 1⟩ e = [2026] := by
        unfold years_to_calculate
        rw [hey]
        decide
      have e1 := get_aggregated_price_ok env freq s e (by rw [hA]; decide)
      have e2 := get_aggregated_price_ok env freq s ⟨2026, 2, 1⟩ (by rw [hB]; decide)
      have e3 := get_aggregated_price_ok env freq ⟨2026, 2, 1⟩ e (by rw [hC]; decide)
      rw [hA] at e1
      rw [hB] at e2
      rw [hC] at e3
      simp only [List.map_cons, List.map_nil, yearPeriods, price_calculation,
        Option.getD_some, List.flatten_cons, List.flatten_nil, List.append_nil,
        List.cons_append, List.nil_append] at e1 e2 e3
      rw [e1, e2, e3]
      simp only [exceptConcat]
      rw [Except.ok.injEq]
      simp only [contribsFold, List.foldl_cons, List.foldl_nil]
      rw [periodContrib_congr_left env freq s e ⟨2026, 2, 1⟩ ⟨2026, 1, 1⟩ ⟨2026, 2, 1⟩
          .waseWind2026 (by decide) hbe (by decide) (by decide),
        periodContrib_congr_right env freq s e ⟨2026, 2, 1⟩ ⟨2026, 2, 1⟩ ⟨2027, 1, 1⟩
          .waseWindDynamic2026 (by decide) hsb,
        periodContrib_dropRight env freq s ⟨2026, 2, 1⟩ ⟨2026, 2, 1⟩ ⟨2027, 1, 1⟩
          .waseWindDynamic2026 (by decide) hsb,
        periodContrib_dropLeft env freq ⟨2026, 2, 1⟩ e ⟨2026, 1, 1⟩ ⟨2026, 2, 1⟩
          .waseWind2026 (by decide) hbe]
      simp [optConcat_none_left, optConcat_none_right, optConcat_assoc]

/-- C5 witness: the range `[2024-06-01, 2025-03-01)` split at the period
boundary 2025-01-01, against the environment with no stored rows. -/
theorem C5_witness :
    ((⟨2024, 6, 1⟩ : Date).Valid ∧ (⟨2025, 3, 1⟩ : Date).Valid
        ∧ (⟨2024, 6, 1⟩ : Date).toNat < (⟨2025, 1, 1⟩ : Date).toNat
        ∧ (⟨2025, 1, 1⟩ : Date).toNat < (⟨2025, 3, 1⟩ : Date).toNat
        ∧ 2024 ≤ (⟨2024, 6, 1⟩ : Date).year ∧ (⟨2025, 3, 1⟩ : Date).year ≤ 2026)
      ∧ (get_aggregated_price envNoData ⟨2024, 6, 1⟩ ⟨2025, 3, 1⟩ .ms
            = exceptConcat (get_aggregated_price envNoData ⟨2024, 6, 1⟩ ⟨2025, 1, 1⟩ .ms)
                (get_aggregated_price envNoData ⟨2025, 1, 1⟩ ⟨2025, 3, 1⟩ .ms)
          ∧ get_aggregated_price envNoData ⟨2024, 6, 1⟩ ⟨2025, 3, 1⟩ .ms
            = get_aggregated_price envNoData ⟨2024, 6, 1⟩ ⟨2025, 3, 1⟩ .ms) :=
  ⟨⟨by decide, by decide, by decide, by decide, by decide, by decide⟩,
    C5_range_splitting envNoData .ms ⟨2024, 6, 1⟩ ⟨2025, 3, 1⟩ ⟨2025, 1, 1⟩
      (by decide) (by decide) (Or.inl rfl) (by decide) (by decide) (by decide) (by decide)⟩


theorem foldl_min_le {xs : List Nat} {a : Nat} : xs.foldl min a ≤ a := by
  induction xs generalizing a with
  | nil => simp
  | cons y ys ih =>
    simp only [List.foldl_cons]
    exact le_trans ih (min_le_left a y)

theorem le_foldl_max {xs : List Nat} {a : Nat} : a ≤ xs.foldl max a := by
  induction xs generalizing a with
  | nil => simp
  | cons y ys ih =>
    simp only [List.foldl_cons]
    exact le_trans (le_max_left a y) ih

theorem tsMin_le_tsMax (l : List Nat) : tsMin l ≤ tsMax l := by
  cases l with
  | nil => simp [tsMin, tsMax]
  | cons x xs =>
    simp only [tsMin, tsMax]
    exact le_trans foldl_min_le le_foldl_max

theorem foldl_max_mem (xs : List Nat) (a : Nat) : xs.foldl max a ∈ a :: xs := by
  induction xs generalizing a with
  | nil => simp
  | cons y ys ih =>
    simp only [List.foldl_cons]
    have h := ih (max a y)
    rcases max_choice a y with hm | hm <;> rw [hm] at h ⊢ <;>
      rcases List.mem_cons.mp h with h' | h' <;> simp [h']

theorem tsMax_mem (l : List Nat) (h : l ≠ []) : tsMax l ∈ l := by
  cases l with
  | nil => exact absurd rfl h
  | cons x xs => exact foldl_max_mem xs x

theorem grid_le_tsMax (samples : List (Nat × ℚ)) (freq g : Nat) (hf : 0 < freq)
    (hg : g ∈ gridPoints samples freq) : g ≤ tsMax (samples.map (·.1)) := by
  obtain ⟨i, hi, rfl⟩ := List.mem_range'.mp hg
  have h1 : tsMin (samples.map (·.1)) ≤ tsMax (samples.map (·.1)) := tsMin_le_tsMax _
  have hstart_le : gridStart samples freq ≤ gridStop samples freq := by
    unfold gridStart gridStop
    exact Nat.mul_le_mul_right freq (Nat.div_le_div_right h1)
  have hdiff : gridStop samples freq - gridStart samples freq
      = (tsMax (samples.map (·.1)) / freq - tsMin (samples.map (·.1)) / freq) * freq := by
    unfold gridStop gridStart
    rw [Nat.sub_mul]
  have hn : (gridStop samples freq - gridStart samples freq) / freq
      = tsMax (samples.map (·.1)) / freq - tsMin (samples.map (·.1)) / freq := by
    rw [hdiff, Nat.mul_div_cancel _ hf]
  rw [hn] at hi
  have hstep : freq * i
      ≤ freq * (tsMax (samples.map (·.1)) / freq - tsMin (samples.map (·.1)) / freq) :=
    Nat.mul_le_mul_left freq (by omega)
  have hstop : gridStop samples freq ≤ tsMax (samples.map (·.1)) := by
    unfold gridStop
    exact Nat.div_mul_le_self _ _
  have : gridStart samples freq
      + freq * (tsMax (samples.map (·.1)) / freq - tsMin (samples.map (·.1)) / freq)
      = gridStop samples freq := by
    rw [Nat.mul_comm, ← hdiff]
    omega
  omega

theorem getLastQ_ne_none {a : Type} : ∀ (l : List a), l ≠ [] → l.getLast? ≠ none
  | [], h => absurd rfl h
  | [x], _ => by simp
  | x :: y :: t, _ => by
    rw [List.getLast?_cons_cons]
    exact getLastQ_ne_none (y :: t) (by simp)


/-- C8: the interpolation stage.  (1) Two samples one hour apart with values
0 and 100, linear method, 15-minute target frequency produce buckets at
0/15/30/45/60 minutes with values 0, 25, 50, 75, 100.  (2) For every input
series, an output position at or past the last real sample (no produced
position lies strictly beyond it) holds the last known value — the value of
the last sample at the final position — never an extrapolation. -/
theorem C8_interpolation (samples : List (Nat × ℚ)) (freq g : Nat)
    (hne : samples ≠ []) (hf : 0 < freq)
    (hg : g ∈ gridPoints samples freq)
    (hlast : tsMax (samples.map (·.1)) ≤ g) :
    (to_df [(0, 0), (60, 100)] 15
        = [(0, some 0), (15, some 25), (30, some 50), (45, some 75), (60, some 100)])
      ∧ interpAt samples freq g = knownAt samples (tsMax (samples.map (·.1)))
      ∧ knownAt samples (tsMax (samples.map (·.1))) ≠ none := by
  have hexample : to_df [(0, 0), (60, 100)] 15
      = [(0, some 0), (15, some 25), (30, some 50), (45, some 75), (60, some 100)] := by
    have hgp : gridPoints [(0, 0), (60, 100)] 15 = [0, 15, 30, 45, 60] := by decide
    have h0 : interpAt [(0, 0), (60, 100)] 15 0 = some 0 := rfl
    have h60 : interpAt [(0, 0), (60, 100)] 15 60 = some 100 := rfl
    have hk15 : knownAt [(0, (0 : ℚ)), (60, 100)] 15 = none := by decide
    have hk30 : knownAt [(0, (0 : ℚ)), (60, 100)] 30 = none := by decide
    have hk45 : knownAt [(0, (0 : ℚ)), (60, 100)] 45 = none := by decide
    have hk0 : knownAt [(0, (0 : ℚ)), (60, 100)] 0 = some 0 := rfl
    have hk60 : knownAt [(0, (0 : ℚ)), (60, 100)] 60 = some 100 := rfl
    have hp15 : prevKnown [(0, (0 : ℚ)), (60, 100)] 15 15 = some 0 := by decide
    have hn15 : nextKnown [(0, (0 : ℚ)), (60, 100)] 15 15 = some 60 := by decide
    have hp30 : prevKnown [(0, (0 : ℚ)), (60, 100)] 15 30 = some 0 := by decide
    have hn30 : nextKnown [(0, (0 : ℚ)), (60, 100)] 15 30 = some 60 := by decide
    have hp45 : prevKnown [(0, (0 : ℚ)), (60, 100)] 15 45 = some 0 := by decide
    have hn45 : nextKnown [(0, (0 : ℚ)), (60, 100)] 15 45 = some 60 := by decide
    have h15 : interpAt [(0, 0), (60, 100)] 15 15 = some 25 := by
      simp only [interpAt, hk15, hp15, hn15, hk0, hk60]
      norm_num
    have h30 : interpAt [(0, 0), (60, 100)] 15 30 = some 50 := by
      simp only [interpAt, hk30, hp30, hn30, hk0, hk60]
      norm_num
    have h45 : interpAt [(0, 0), (60, 100)] 15 45 = some 75 := by
      simp only [interpAt, hk45, hp45, hn45, hk0, hk60]
      norm_num
    unfold to_df
    rw [hgp]
    simp only [List.map_cons, List.map_nil]
    rw [h0, h15, h30, h45, h60]
  have hle := grid_le_tsMax samples freq g hf hg
  have hEq : g = tsMax (samples.map (·.1)) := by omega
  subst hEq
  have hmem : tsMax (samples.map (·.1)) ∈ samples.map (·.1) :=
    tsMax_mem _ (by simpa using hne)
  obtain ⟨p, hpl, hfp⟩ := List.mem_map.mp hmem
  have hfilter : samples.filter (fun q => q.1 == tsMax (samples.map (·.1))) ≠ [] :=
    List.ne_nil_of_mem (List.mem_filter.mpr ⟨hpl, by simp [hfp]⟩)
  have hsome : knownAt samples (tsMax (samples.map (·.1))) ≠ none := by
    unfold knownAt
    intro hcon
    exact getLastQ_ne_none _ hfilter (Option.map_eq_none.mp hcon)
  obtain ⟨v, hv⟩ := Option.ne_none_iff_exists'.mp hsome
  exact ⟨hexample, by simp only [interpAt, hv], hsome⟩

/-- C8 witness: the two-sample series itself, at its final grid position 60,
where the produced value is the last sample's value 100. -/
theorem C8_witness :
    (([(0, (0 : ℚ)), (60, 100)] : List (Nat × ℚ)) ≠ [] ∧ 0 < 15
        ∧ 60 ∈ gridPoints [(0, 0), (60, 100)] 15
        ∧ tsMax (([(0, (0 : ℚ)), (60, 100)] : List (Nat × ℚ)).map (·.1)) ≤ 60)
      ∧ ((to_df [(0, 0), (60, 100)] 15
            = [(0, some 0), (15, some 25), (30, some 50), (45, some 75), (60, some 100)])
        ∧ interpAt [(0, 0), (60, 100)] 15 60
            = knownAt [(0, 0), (60, 100)]
                (tsMax (([(0, (0 : ℚ)), (60, 100)] : List (Nat × ℚ)).map (·.1)))
        ∧ knownAt [(0, 0), (60, 100)]
            (tsMax (([(0, (0 : ℚ)), (60, 100)] : List (Nat × ℚ)).map (·.1))) ≠ none) :=
  ⟨⟨by decide, by decide, by decide, by decide⟩,
    C8_interpolation [(0, 0), (60, 100)] 15 60 (by decide) (by decide)
      (by decide) (by decide)⟩
